import Mathlib

/-!
Shallow embedding of the content-collector bot (`bot.py`) ingestion pipeline:
content fingerprinting and deduplication, link extraction, per-kind persistence,
unified-record reconciliation (`_save_telethon_message`), the channel monitor
loop and cursor management (`_monitor_loop`, `_add_channel`, `_stop_channel`),
and the media-group coalescer (`_handle_media_group`, `_process_media_group`).

Modelling conventions:
* raw bytes are `List Nat`;
* the MD5 digest (`_calculate_file_hash`) is modelled as an injective map
  (the identity on byte lists): every property below quantifies over
  byte-identical versus distinct content, never over hash collisions;
* the PostgreSQL tables are association lists; `GENERATED ALWAYS AS IDENTITY`
  columns are modelled as `length + 1`; the `UNIQUE` constraint on
  `message_channel.file_hash` is an explicit pre-insert check whose failure
  drops the insert (the Python code catches and logs the raised error);
* the database pool is assumed available, local file writes succeed, and media
  downloads return the message's payload bytes (I/O failure paths of the
  Python code are outside the claims checked here);
* `datetime` values are integers; timezone stripping in `_normalize_datetime`
  is not observable in this model, only the `None → now` default is.
-/

namespace ContentBot

/-- Raw content bytes. -/
abbrev Bytes := List Nat

/-- `_calculate_file_hash`: MD5 digest of the content, modelled as an
injective map on byte strings (collisions are not modelled). -/
def calculateFileHash (data : Bytes) : Bytes := data

/-- `str.encode('utf-8')`, modelled as the (injective) list of code points. -/
def encodeUtf8 (s : String) : Bytes := s.toList.map Char.toNat

/-- A Telethon message as consumed by `_save_telethon_message`:
`id`, `message` (text/caption), `media` presence, the downloaded media
payload, the media-kind flags tested by the classifier, and `date`. -/
structure TgMsg where
  id : Option Nat
  message : Option String
  hasMedia : Bool
  mediaBytes : Bytes
  isPhoto : Bool
  isVideo : Bool
  isAudio : Bool
  isSticker : Bool
  isGif : Bool
  hasAnimationAttr : Bool
  date : Option Int
deriving Repr, DecidableEq

/-- A message with only an id: no text, no media (used in scenarios). -/
def emptyMsg (i : Nat) : TgMsg :=
  { id := some i, message := none, hasMedia := false, mediaBytes := [],
    isPhoto := false, isVideo := false, isAudio := false, isSticker := false,
    isGif := false, hasAnimationAttr := false, date := none }

/-- A text-only message (used in scenarios). -/
def textMsg (i : Nat) (t : String) : TgMsg :=
  { emptyMsg i with message := some t }

/-- Python truthiness of `message_id`: present and non-zero. -/
def midOk (m : TgMsg) : Option Nat :=
  m.id.bind (fun i => if i = 0 then none else some i)

/-- Python truthiness of the `channel_id` argument: present and non-zero. -/
def cidOf (chId : Option Nat) : Option Nat :=
  chId.bind (fun c => if c = 0 then none else some c)

/-! ## Link extraction (`_extract_links`)

The pattern `http[s]?://(?:[a-zA-Z]|[0-9]|[$-_@.&+]|[!*\(\),]|(?:%HH))+` is a
scheme literal followed by one or more characters of a class.  All characters
reachable through the `%HH` branch (`%` lies in the `$-_` range, hex digits are
alphanumeric) are also single-character class members, so the greedy match is
exactly the longest run of single-class characters after the scheme. -/

/-- One character of the URL body character class. -/
def urlChar (c : Char) : Bool :=
  (97 ≤ c.toNat && c.toNat ≤ 122) ||      -- [a-z]
  (65 ≤ c.toNat && c.toNat ≤ 90) ||       -- [A-Z]
  (48 ≤ c.toNat && c.toNat ≤ 57) ||       -- [0-9]
  (36 ≤ c.toNat && c.toNat ≤ 95) ||       -- [$-_] (also covers @ . & + %)
  c == '!' || c == '*' || c == '\\' || c == '(' || c == ')' || c == ','

/-- Try to match one URL at the head of `cs`: scheme (greedy optional `s`)
followed by at least one class character.  Returns the match and the rest. -/
def matchUrlAt (cs : List Char) : Option (List Char × List Char) :=
  let tryScheme (scheme : List Char) : Option (List Char × List Char) :=
    if cs.take scheme.length = scheme then
      let rest := cs.drop scheme.length
      let run := rest.takeWhile urlChar
      if run.isEmpty then none
      else some (scheme ++ run, rest.dropWhile urlChar)
    else none
  match tryScheme "https://".toList with
  | some r => some r
  | none => tryScheme "http://".toList

/-- `re.findall` over the message text: scan left to right, resuming after
each match.  Fuel-indexed (each step consumes at least one character). -/
def findUrlsAux : Nat → List Char → List String
  | 0, _ => []
  | _, [] => []
  | fuel + 1, c :: rest =>
    match matchUrlAt (c :: rest) with
    | some (url, rem) => String.mk url :: findUrlsAux fuel rem
    | none => findUrlsAux fuel rest

def findUrls (s : String) : List String :=
  findUrlsAux (s.toList.length + 1) s.toList

/-- `urlparse(url).netloc` for the URLs this scanner produces: the characters
after the scheme up to the first `/`, `?` or `#`. -/
def netlocOf (url : String) : String :=
  let cs := url.toList
  let tail :=
    if cs.take 8 = "https://".toList then cs.drop 8
    else if cs.take 7 = "http://".toList then cs.drop 7
    else cs
  String.mk (tail.takeWhile (fun c => !(c == '/' || c == '?' || c == '#')))

/-- A parsed link; `title` and `description` are always `NULL` in the source
and are not modelled. -/
structure LinkData where
  url : String
  domain : String
deriving Repr, DecidableEq

/-- `_extract_links`. -/
def extractLinks (text : String) : List LinkData :=
  (findUrls text).map (fun u => { url := u, domain := netlocOf u })

/-! ## Relational store -/

/-- One row of the `links` table (`url` is unique). -/
structure LinkRow where
  link_id : Nat
  url : String
  domain : String
deriving Repr, DecidableEq

/-- One row of the `message_channel` table (the unified record). -/
structure MCRow where
  channel_id : Nat
  telegram_message_id : Nat
  creation_time : Int
  text_id : Option Nat
  photo_id : Option Nat
  video_id : Option Nat
  audio_id : Option Nat
  document_id : Option Nat
  sticker_id : Option Nat
  animation_id : Option Nat
  link_id : Option Nat
  file_hash : Option Bytes
deriving Repr, DecidableEq

/-- One row of the `channel` table. -/
structure ChannelRow where
  channel_id : Nat
  tag_channel : String
  name_channel : String
  is_active : Bool
  added_by : Nat
  last_message_id : Nat
  last_check_at : Int
deriving Repr, DecidableEq

/-- The relational store.  Per-kind content tables hold `(id, locator)`
pairs (the `document` table's `original_name` is not observed by any claim). -/
structure DB where
  textRows : List (Nat × String)
  photoRows : List (Nat × String)
  videoRows : List (Nat × String)
  audioRows : List (Nat × String)
  documentRows : List (Nat × String)
  stickerRows : List (Nat × String)
  animationRows : List (Nat × String)
  linkRows : List LinkRow
  channelRows : List ChannelRow
  mcRows : List MCRow
deriving Repr, DecidableEq

def DB.empty : DB :=
  { textRows := [], photoRows := [], videoRows := [], audioRows := [],
    documentRows := [], stickerRows := [], animationRows := [],
    linkRows := [], channelRows := [], mcRows := [] }

/-- `INSERT ... RETURNING id` into a kind table. -/
def insertRow (rows : List (Nat × String)) (locator : String) :
    Nat × List (Nat × String) :=
  (rows.length + 1, rows ++ [(rows.length + 1, locator)])

/-- `INSERT INTO links ... ON CONFLICT (url) DO UPDATE SET url = EXCLUDED.url
RETURNING link_id`: upsert by URL, returning the existing row's id on
conflict. -/
def upsertLink (db : DB) (l : LinkData) : Nat × DB :=
  match db.linkRows.find? (fun r => r.url == l.url) with
  | some r => (r.link_id, db)
  | none =>
    let nid := db.linkRows.length + 1
    (nid, { db with linkRows :=
        db.linkRows ++ [{ link_id := nid, url := l.url, domain := l.domain }] })

/-- The `UNIQUE` constraint on `message_channel.file_hash`: a non-null hash
conflicts when some existing row carries the same hash. -/
def hashConflict (db : DB) : Option Bytes → Bool
  | some h => db.mcRows.any (fun r => r.file_hash == some h)
  | none => false

/-! ## In-memory bot state -/

/-- A file written to the local byte sink (`_save_file_locally`). -/
structure SinkEntry where
  kind : String
  data : Bytes
deriving Repr, DecidableEq

/-- The bot's persistent-relevant state: the in-memory fingerprint index
(keys of `processed_content`), the database and the local byte sink. -/
structure BotState where
  processedContent : List Bytes
  db : DB
  sink : List SinkEntry
deriving Repr, DecidableEq

def BotState.empty : BotState :=
  { processedContent := [], db := DB.empty, sink := [] }

/-- `_is_duplicate`: membership in the in-memory fingerprint index. -/
def isDuplicate (st : BotState) (h : Bytes) : Bool :=
  st.processedContent.contains h

/-- The content ids accumulated while processing one message
(the local variables `text_id`, ..., `link_id`, `file_hash`). -/
structure ContentIds where
  text_id : Option Nat := none
  photo_id : Option Nat := none
  video_id : Option Nat := none
  audio_id : Option Nat := none
  document_id : Option Nat := none
  sticker_id : Option Nat := none
  animation_id : Option Nat := none
  link_id : Option Nat := none
  file_hash : Option Bytes := none
deriving Repr, DecidableEq

/-- Mutable context of one `_save_telethon_message` call. -/
structure SaveCtx where
  st : BotState
  ids : ContentIds
  messageProcessed : Bool
  savedAny : Bool
deriving Repr, DecidableEq

/-- `_normalize_datetime`: `None` defaults to the current time; timezone
stripping is not observable on integer times. -/
def normalizeDatetime (d : Option Int) (now : Int) : Int := d.getD now

/-- The media-kind classifier of `_save_telethon_message` (the
`content_type` if/elif chain). -/
def contentTypeOf (m : TgMsg) : String :=
  if m.isPhoto then "image"
  else if m.isVideo then "video"
  else if m.isAudio then "audio"
  else if m.isSticker then "sticker"
  else if m.isGif || m.hasAnimationAttr then "animation"
  else "document"

/-- Text branch of `_save_telethon_message`: write the text to the byte sink,
fingerprint it, and — only when the fingerprint is fresh — insert a `text`
row, upsert the first extracted link, and record the fingerprint. -/
def textPhase (m : TgMsg) (cid? : Option Nat) (ctx : SaveCtx) : SaveCtx :=
  match m.message with
  | none => ctx
  | some t =>
    if t.isEmpty then ctx else
    let ctx := { ctx with messageProcessed := true }
    let tb := encodeUtf8 t
    -- `_save_file_locally` runs before the duplicate check
    let ctx := { ctx with st :=
      { ctx.st with sink := ctx.st.sink ++ [SinkEntry.mk "text" tb] } }
    let h := calculateFileHash tb
    let ctx := { ctx with ids := { ctx.ids with file_hash := some h } }
    if isDuplicate ctx.st h then ctx
    else
      let ctx :=
        match cid? with
        | none => ctx   -- "Cannot save text to DB" warning path
        | some _ =>
          let tid := ctx.st.db.textRows.length + 1
          let ctx := { ctx with
            st := { ctx.st with db :=
              { ctx.st.db with textRows := ctx.st.db.textRows ++ [(tid, t)] } },
            ids := { ctx.ids with text_id := some tid } }
          match extractLinks t with
          | [] => ctx
          | l :: _ =>
            { ctx with st := { ctx.st with db := (upsertLink ctx.st.db l).2 },
                       ids := { ctx.ids with
                         link_id := some (upsertLink ctx.st.db l).1 } }
      let ctx := { ctx with st := { ctx.st with
        processedContent := ctx.st.processedContent ++ [h] } }
      { ctx with savedAny := true }

/-- Store one classified media payload into its kind table. -/
def kindInsert (ct : String) (db : DB) (ids : ContentIds) : DB × ContentIds :=
  if ct = "image" then
    let p := insertRow db.photoRows ct
    ({ db with photoRows := p.2 }, { ids with photo_id := some p.1 })
  else if ct = "video" then
    let p := insertRow db.videoRows ct
    ({ db with videoRows := p.2 }, { ids with video_id := some p.1 })
  else if ct = "audio" then
    let p := insertRow db.audioRows ct
    ({ db with audioRows := p.2 }, { ids with audio_id := some p.1 })
  else if ct = "document" then
    let p := insertRow db.documentRows ct
    ({ db with documentRows := p.2 }, { ids with document_id := some p.1 })
  else if ct = "sticker" then
    let p := insertRow db.stickerRows ct
    ({ db with stickerRows := p.2 }, { ids with sticker_id := some p.1 })
  else if ct = "animation" then
    let p := insertRow db.animationRows ct
    ({ db with animationRows := p.2 }, { ids with animation_id := some p.1 })
  else (db, ids)

/-- Media branch of `_save_telethon_message`: download, fingerprint, and —
only when the fingerprint is fresh — classify, write to the byte sink,
insert the kind row, and record the fingerprint. -/
def mediaPhase (m : TgMsg) (cid? : Option Nat) (ctx : SaveCtx) : SaveCtx :=
  if !m.hasMedia then ctx else
  let ctx := { ctx with messageProcessed := true }
  let data := m.mediaBytes
  if data.isEmpty then ctx else
  let h := calculateFileHash data
  let ctx := { ctx with ids := { ctx.ids with file_hash := some h } }
  if isDuplicate ctx.st h then ctx
  else
    let ct := contentTypeOf m
    -- here `_save_file_locally` runs after the duplicate check
    let ctx := { ctx with st :=
      { ctx.st with sink := ctx.st.sink ++ [SinkEntry.mk ct data] } }
    let ctx :=
      match cid? with
      | none => ctx   -- "Cannot save media to DB" warning path
      | some _ =>
        let (db', ids') := kindInsert ct ctx.st.db ctx.ids
        { ctx with st := { ctx.st with db := db' }, ids := ids' }
    let ctx := { ctx with st := { ctx.st with
      processedContent := ctx.st.processedContent ++ [h] } }
    { ctx with savedAny := true }

/-- `if not message_processed and message_id:` — an empty message with an id
still counts as processed. -/
def emptyPhase (m : TgMsg) (ctx : SaveCtx) : SaveCtx :=
  if ctx.messageProcessed = false ∧ (midOk m).isSome then
    { ctx with messageProcessed := true }
  else ctx

/-- Build the unified `message_channel` row from the collected content ids. -/
def mkMCRow (cid mid : Nat) (ct : Int) (ids : ContentIds) : MCRow :=
  { channel_id := cid, telegram_message_id := mid, creation_time := ct,
    text_id := ids.text_id, photo_id := ids.photo_id, video_id := ids.video_id,
    audio_id := ids.audio_id, document_id := ids.document_id,
    sticker_id := ids.sticker_id, animation_id := ids.animation_id,
    link_id := ids.link_id, file_hash := ids.file_hash }

/-- The `(telegram_message_id, channel_id)` lookup predicate of the
reconciler's existence check. -/
def mcKeyMatch (cid mid : Nat) (r : MCRow) : Bool :=
  r.telegram_message_id == mid && r.channel_id == cid

/-- Number of unified records stored for one `(channel, platform message id)`
key. -/
def keyCount (db : DB) (cid mid : Nat) : Nat :=
  (db.mcRows.filter (mcKeyMatch cid mid)).length

/-- Reconciler phase of `_save_telethon_message`: look up an existing unified
record by `(telegram_message_id, channel_id)`; if absent, insert one — unless
the `UNIQUE` constraint on `file_hash` rejects the insert, in which case the
raised error is caught and nothing is written. -/
def mcPhase (m : TgMsg) (cid? : Option Nat) (now : Int) (ctx : SaveCtx) :
    SaveCtx :=
  match cid?, midOk m with
  | some cid, some mid =>
    if ctx.st.db.mcRows.any (mcKeyMatch cid mid) then
      ctx
    else if hashConflict ctx.st.db ctx.ids.file_hash then ctx
    else
      { ctx with
        st := { ctx.st with db :=
          { ctx.st.db with mcRows := ctx.st.db.mcRows ++
            [mkMCRow cid mid (normalizeDatetime m.date now) ctx.ids] } },
        savedAny := true }
  | _, _ => ctx

/-- The `types_saved` list assembled at the end of `_save_telethon_message`. -/
def typesSavedOf (ids : ContentIds) : List String :=
  (if ids.text_id.isSome then ["text"] else []) ++
  (if ids.photo_id.isSome then ["photo"] else []) ++
  (if ids.video_id.isSome then ["video"] else []) ++
  (if ids.audio_id.isSome then ["audio"] else []) ++
  (if ids.document_id.isSome then ["document"] else []) ++
  (if ids.sticker_id.isSome then ["sticker"] else []) ++
  (if ids.animation_id.isSome then ["animation"] else []) ++
  (if ids.link_id.isSome then ["link"] else [])

/-- The return value and state effect of one `_save_telethon_message` call. -/
structure SaveResult where
  processed : Bool
  typesSaved : List String
  state : BotState
deriving Repr, DecidableEq

/-- `_save_telethon_message`. -/
def saveTelethonMessage (st : BotState) (m : TgMsg) (chId : Option Nat)
    (now : Int) : SaveResult :=
  let ctx := textPhase m (cidOf chId) ⟨st, {}, false, false⟩
  let ctx := mediaPhase m (cidOf chId) ctx
  let ctx := emptyPhase m ctx
  let ctx := mcPhase m (cidOf chId) now ctx
  { processed := ctx.messageProcessed || ctx.savedAny,
    typesSaved := typesSavedOf ctx.ids,
    state := ctx.st }

/-! ## Channel cursor & monitor loop -/

/-- Per-channel in-memory state (`self.monitored_channels[channel]`). -/
structure ChanMeta where
  isActive : Bool
  lastId : Nat
  channelId : Option Nat
deriving Repr, DecidableEq

/-- `UPDATE channel SET last_message_id = $1, last_check_at = ... WHERE
tag_channel = $2`. -/
def updateChannelCursor (db : DB) (tag : String) (i : Nat) (now : Int) : DB :=
  { db with channelRows := db.channelRows.map (fun r =>
      if r.tag_channel == tag then
        { r with last_message_id := i, last_check_at := now }
      else r) }

/-- `UPDATE channel SET last_check_at = ... WHERE tag_channel = $1` (the
end-of-cycle heartbeat). -/
def touchHeartbeat (db : DB) (tag : String) (now : Int) : DB :=
  { db with channelRows := db.channelRows.map (fun r =>
      if r.tag_channel == tag then { r with last_check_at := now } else r) }

/-- Outcome of the per-channel message iteration of one monitor cycle:
final state, final in-memory meta, the `new_count` tally, and the log of
messages passed to `_save_telethon_message` with their success flags. -/
structure CycleOut where
  st : BotState
  meta : ChanMeta
  newCount : Nat
  log : List (TgMsg × Bool)
deriving Repr, DecidableEq

/-- The `async for msg in iter_messages(...)` body of `_monitor_loop`:
save each message; on success bump `new_count` and, when the id exceeds the
current cursor, advance the in-memory cursor and persist it. -/
def runMsgs (tag : String) (now : Int) (st : BotState) (meta : ChanMeta) :
    List TgMsg → CycleOut
  | [] => ⟨st, meta, 0, []⟩
  | m :: rest =>
    let r := saveTelethonMessage st m meta.channelId now
    if r.processed then
      let idv := m.id.getD 0
      if idv ≠ 0 ∧ meta.lastId < idv then
        let st' := { r.state with db := updateChannelCursor r.state.db tag idv now }
        let out := runMsgs tag now st' { meta with lastId := idv } rest
        ⟨out.st, out.meta, out.newCount + 1, (m, true) :: out.log⟩
      else
        let out := runMsgs tag now r.state meta rest
        ⟨out.st, out.meta, out.newCount + 1, (m, true) :: out.log⟩
    else
      let out := runMsgs tag now r.state meta rest
      ⟨out.st, out.meta, out.newCount, (m, false) :: out.log⟩

/-- One monitor cycle over one channel, given the batch of messages the
transport yields; ends with the unconditional heartbeat update. -/
def monitorCycleChannel (st : BotState) (tag : String) (meta : ChanMeta)
    (msgs : List TgMsg) (now : Int) : CycleOut :=
  let out := runMsgs tag now st meta msgs
  { out with st := { out.st with db := touchHeartbeat out.st.db tag now } }

/-- One monitor cycle over one channel where the transport contract
(`iter_messages(entity, min_id=last_id)`) yields exactly the members of the
channel history with id strictly greater than the cursor. -/
def cycleOnHistory (st : BotState) (tag : String) (meta : ChanMeta)
    (history : List TgMsg) (now : Int) : CycleOut :=
  monitorCycleChannel st tag meta
    (history.filter (fun m => decide (meta.lastId < m.id.getD 0))) now

/-- Outcome of a sequence of monitor cycles. -/
structure RunOut where
  st : BotState
  meta : ChanMeta
  log : List (TgMsg × Bool)
deriving Repr, DecidableEq

/-- A sequence of monitor cycles for one channel (one history snapshot per
cycle); inactive channels are skipped (`if not meta.get('is_active'):
continue`). -/
def runCycles (tag : String) (now : Int) (st : BotState) (meta : ChanMeta) :
    List (List TgMsg) → RunOut
  | [] => ⟨st, meta, []⟩
  | h :: rest =>
    if meta.isActive then
      let c := cycleOnHistory st tag meta h now
      let out := runCycles tag now c.st c.meta rest
      ⟨out.st, out.meta, c.log ++ out.log⟩
    else runCycles tag now st meta rest

/-- `_add_channel`: capture the channel's current latest message id
(`latestId`, 0 when the channel is empty) as the initial cursor, persist or
reactivate the channel row, and register the in-memory state. -/
def addChannel (st : BotState) (tag title : String) (addedBy : Nat)
    (latestId : Nat) (now : Int) : BotState × ChanMeta :=
  match st.db.channelRows.find? (fun r => r.tag_channel == tag) with
  | some r =>
    let db' := { st.db with channelRows := st.db.channelRows.map (fun c =>
        if c.tag_channel == tag then
          { c with is_active := true, added_by := addedBy,
                   last_message_id := latestId, last_check_at := now }
        else c) }
    ({ st with db := db' },
     { isActive := true, lastId := latestId, channelId := some r.channel_id })
  | none =>
    let nid := st.db.channelRows.length + 1
    let db' := { st.db with channelRows := st.db.channelRows ++
        [{ channel_id := nid, tag_channel := tag, name_channel := title,
           is_active := true, added_by := addedBy,
           last_message_id := latestId, last_check_at := now }] }
    ({ st with db := db' },
     { isActive := true, lastId := latestId, channelId := some nid })

/-- The in-memory `monitored_channels` map. -/
abbrev Monitored := List (String × ChanMeta)

/-- Result of `_stop_channel`. -/
structure StopOut where
  ok : Bool
  db : DB
  mon : Monitored
deriving Repr, DecidableEq

/-- `_stop_channel`: `UPDATE channel SET is_active = FALSE, last_check_at =
... WHERE tag_channel = $1`; on `UPDATE 0` return `False` without touching
memory; otherwise mark the in-memory entry inactive. -/
def stopChannel (db : DB) (mon : Monitored) (tag : String) (now : Int) :
    StopOut :=
  if !db.channelRows.any (fun r => r.tag_channel == tag) then
    ⟨false, db, mon⟩
  else
    let db' := { db with channelRows := db.channelRows.map (fun r =>
        if r.tag_channel == tag then
          { r with is_active := false, last_check_at := now }
        else r) }
    let mon' := mon.map (fun p =>
        if p.1 == tag then (p.1, { p.2 with isActive := false }) else p)
    ⟨true, db', mon'⟩

/-! ## Media-group coalescer -/

/-- The fixed quiescence delay (`asyncio.sleep(2.0)`). -/
def quiescenceDelay : Nat := 2

/-- State of the coalescer: the `media_groups` buffer map, a log of flushes
`(time, group id, fragments flushed together)`, and the number of deferred
timer tasks created so far. -/
structure CoalState where
  mediaGroups : List (String × List Nat)
  flushLog : List (Nat × String × List Nat)
  timersStarted : Nat
deriving Repr, DecidableEq

def CoalState.empty : CoalState := ⟨[], [], 0⟩

/-- `_handle_media_group`: buffer the fragment under its group id and create
a deferred flush task — one per fragment, not one per group. -/
def handleMediaGroup (s : CoalState) (gid : String) (frag : Nat) : CoalState :=
  let groups :=
    if s.mediaGroups.any (fun p => p.1 == gid) then
      s.mediaGroups.map (fun p => if p.1 == gid then (p.1, p.2 ++ [frag]) else p)
    else s.mediaGroups ++ [(gid, [frag])]
  { s with mediaGroups := groups, timersStarted := s.timersStarted + 1 }

/-- Expiry of one deferred flush task (`process_group_later`): if the group
is still buffered, `_process_media_group` processes every buffered fragment
and deletes the buffer; otherwise nothing happens. -/
def handleTimerExpiry (s : CoalState) (t : Nat) (gid : String) : CoalState :=
  match s.mediaGroups.find? (fun p => p.1 == gid) with
  | some p =>
    let s := { s with flushLog := s.flushLog ++ [(t, gid, p.2)] }
    if p.2.isEmpty then s
    else { s with mediaGroups := s.mediaGroups.filter (fun q => !(q.1 == gid)) }
  | none => s

/-- A scheduler event: a fragment arrival or a timer expiry. -/
inductive GEvent where
  | arrive (t : Nat) (gid : String) (frag : Nat)
  | timer (t : Nat) (gid : String)
deriving Repr, DecidableEq

/-- Run a time-ordered event sequence through the coalescer. -/
def runEvents (s : CoalState) : List GEvent → CoalState
  | [] => s
  | GEvent.arrive _ gid f :: rest => runEvents (handleMediaGroup s gid f) rest
  | GEvent.timer t gid :: rest => runEvents (handleTimerExpiry s t gid) rest

/-- The time-ordered event sequence of one media group whose fragments
`(tᵢ, fᵢ)` all arrive within the quiescence window of the first fragment
(`t₁ ≤ ... ≤ tN < t₁ + 2`): every arrival precedes every timer expiry
(`tᵢ + 2 ≥ t₁ + 2 > tN`), and each arrival schedules its own timer. -/
def groupScenario (gid : String) (arrivals : List (Nat × Nat)) : List GEvent :=
  arrivals.map (fun a => GEvent.arrive a.1 gid a.2) ++
  arrivals.map (fun a => GEvent.timer (a.1 + quiescenceDelay) gid)

/-! ## Derived observers and the spec-side precedence rule -/

/-- Maximum of a list of ids (0 when empty). -/
def listMax (l : List Nat) : Nat := l.foldr max 0

/-- Ids of the messages a cycle log marks as successfully processed. -/
def successIds (log : List (TgMsg × Bool)) : List Nat :=
  log.filterMap (fun p => if p.2 then some (p.1.id.getD 0) else none)

/-- The kind predicates in the spec's precedence order
photo > video > audio > sticker > animation. -/
def kindChecks (m : TgMsg) : List (String × Bool) :=
  [("image", m.isPhoto), ("video", m.isVideo), ("audio", m.isAudio),
   ("sticker", m.isSticker), ("animation", m.isGif || m.hasAnimationAttr)]

/-- The spec's resolution rule, stated in its own words: the first kind in
the precedence list whose predicate holds, with document as the generic
fallback.  To be compared with the code's `contentTypeOf`. -/
def specPrecedenceClassify (m : TgMsg) : String :=
  match (kindChecks m).find? (fun p => p.2) with
  | some p => p.1
  | none => "document"

/-! ## Frame lemmas for the save pipeline -/

theorem upsertLink_snd_mcRows (db : DB) (l : LinkData) :
    (upsertLink db l).2.mcRows = db.mcRows := by
  unfold upsertLink; split <;> rfl

theorem upsertLink_snd_textRows (db : DB) (l : LinkData) :
    (upsertLink db l).2.textRows = db.textRows := by
  unfold upsertLink; split <;> rfl

theorem upsertLink_congr (db db' : DB) (l : LinkData)
    (h : db.linkRows = db'.linkRows) :
    (upsertLink db l).1 = (upsertLink db' l).1 ∧
    (upsertLink db l).2.linkRows = (upsertLink db' l).2.linkRows := by
  unfold upsertLink
  rw [h]
  split <;> simp [h]

theorem kindInsert_fst_mcRows (ct : String) (db : DB) (ids : ContentIds) :
    (kindInsert ct db ids).1.mcRows = db.mcRows := by
  unfold kindInsert; repeat' split
  all_goals rfl

theorem kindInsert_fst_linkRows (ct : String) (db : DB) (ids : ContentIds) :
    (kindInsert ct db ids).1.linkRows = db.linkRows := by
  unfold kindInsert; repeat' split
  all_goals rfl

theorem kindInsert_snd_link_id (ct : String) (db : DB) (ids : ContentIds) :
    (kindInsert ct db ids).2.link_id = ids.link_id := by
  unfold kindInsert; repeat' split
  all_goals rfl

theorem textPhase_mcRows (m : TgMsg) (c : Option Nat) (ctx : SaveCtx) :
    (textPhase m c ctx).st.db.mcRows = ctx.st.db.mcRows := by
  unfold textPhase
  cases hm : m.message with
  | none => rfl
  | some t =>
    dsimp only
    repeat' split
    all_goals simp [upsertLink_snd_mcRows]

theorem mediaPhase_mcRows (m : TgMsg) (c : Option Nat) (ctx : SaveCtx) :
    (mediaPhase m c ctx).st.db.mcRows = ctx.st.db.mcRows := by
  unfold mediaPhase
  dsimp only
  repeat' split
  all_goals simp [kindInsert_fst_mcRows]

theorem mediaPhase_linkRows (m : TgMsg) (c : Option Nat) (ctx : SaveCtx) :
    (mediaPhase m c ctx).st.db.linkRows = ctx.st.db.linkRows := by
  unfold mediaPhase
  dsimp only
  repeat' split
  all_goals simp [kindInsert_fst_linkRows]

theorem emptyPhase_st (m : TgMsg) (ctx : SaveCtx) :
    (emptyPhase m ctx).st = ctx.st := by
  unfold emptyPhase; split <;> rfl

theorem emptyPhase_ids (m : TgMsg) (ctx : SaveCtx) :
    (emptyPhase m ctx).ids = ctx.ids := by
  unfold emptyPhase; split <;> rfl

theorem mcPhase_sink (m : TgMsg) (c : Option Nat) (now : Int) (ctx : SaveCtx) :
    (mcPhase m c now ctx).st.sink = ctx.st.sink := by
  unfold mcPhase; repeat' split
  all_goals rfl

theorem mcPhase_processedContent (m : TgMsg) (c : Option Nat) (now : Int)
    (ctx : SaveCtx) :
    (mcPhase m c now ctx).st.processedContent = ctx.st.processedContent := by
  unfold mcPhase; repeat' split
  all_goals rfl

theorem mcPhase_ids (m : TgMsg) (c : Option Nat) (now : Int) (ctx : SaveCtx) :
    (mcPhase m c now ctx).ids = ctx.ids := by
  unfold mcPhase; repeat' split
  all_goals rfl

theorem mcPhase_messageProcessed (m : TgMsg) (c : Option Nat) (now : Int)
    (ctx : SaveCtx) :
    (mcPhase m c now ctx).messageProcessed = ctx.messageProcessed := by
  unfold mcPhase; repeat' split
  all_goals rfl

theorem mcPhase_textRows (m : TgMsg) (c : Option Nat) (now : Int)
    (ctx : SaveCtx) :
    (mcPhase m c now ctx).st.db.textRows = ctx.st.db.textRows := by
  unfold mcPhase; repeat' split
  all_goals rfl

theorem mcPhase_linkRows (m : TgMsg) (c : Option Nat) (now : Int)
    (ctx : SaveCtx) :
    (mcPhase m c now ctx).st.db.linkRows = ctx.st.db.linkRows := by
  unfold mcPhase; repeat' split
  all_goals rfl

/-! ## Branch equations for the save pipeline -/

theorem textPhase_none (m : TgMsg) (c : Option Nat) (ctx : SaveCtx)
    (h : m.message = none) : textPhase m c ctx = ctx := by
  unfold textPhase; rw [h]

theorem textPhase_dup (m : TgMsg) (c : Option Nat) (ctx : SaveCtx) (t : String)
    (h1 : m.message = some t) (h2 : t.isEmpty = false)
    (h3 : ctx.st.processedContent.contains (encodeUtf8 t) = true) :
    textPhase m c ctx =
      { ctx with
        messageProcessed := true,
        st := { ctx.st with
          sink := ctx.st.sink ++ [SinkEntry.mk "text" (encodeUtf8 t)] },
        ids := { ctx.ids with
          file_hash := some (calculateFileHash (encodeUtf8 t)) } } := by
  unfold textPhase
  rw [h1]
  dsimp only
  rw [h2]
  have hd : isDuplicate
      { ctx.st with sink := ctx.st.sink ++ [SinkEntry.mk "text" (encodeUtf8 t)] }
      (calculateFileHash (encodeUtf8 t)) = true := h3
  rw [hd]
  rfl

theorem mediaPhase_noMedia (m : TgMsg) (c : Option Nat) (ctx : SaveCtx)
    (h : m.hasMedia = false) : mediaPhase m c ctx = ctx := by
  unfold mediaPhase; rw [h]
  rfl

theorem mediaPhase_dup (m : TgMsg) (c : Option Nat) (ctx : SaveCtx)
    (h1 : m.hasMedia = true) (h2 : m.mediaBytes.isEmpty = false)
    (h3 : ctx.st.processedContent.contains (calculateFileHash m.mediaBytes)
            = true) :
    mediaPhase m c ctx =
      { ctx with
        messageProcessed := true,
        ids := { ctx.ids with
          file_hash := some (calculateFileHash m.mediaBytes) } } := by
  unfold mediaPhase
  rw [h1]
  dsimp only
  rw [h2]
  have hd : isDuplicate ctx.st (calculateFileHash m.mediaBytes) = true := h3
  rw [hd]
  rfl

theorem emptyPhase_done (m : TgMsg) (ctx : SaveCtx)
    (h : ctx.messageProcessed = true) : emptyPhase m ctx = ctx := by
  unfold emptyPhase
  rw [if_neg]
  simp [h]

theorem emptyPhase_trigger (m : TgMsg) (ctx : SaveCtx)
    (h1 : ctx.messageProcessed = false) (h2 : (midOk m).isSome = true) :
    emptyPhase m ctx = { ctx with messageProcessed := true } := by
  unfold emptyPhase
  rw [if_pos]
  exact ⟨h1, h2⟩

theorem mcPhase_existing (m : TgMsg) (c : Option Nat) (now : Int)
    (ctx : SaveCtx) (cid mid : Nat)
    (hc : c = some cid) (hm : midOk m = some mid)
    (hkey : ctx.st.db.mcRows.any (mcKeyMatch cid mid) = true) :
    mcPhase m c now ctx = ctx := by
  unfold mcPhase
  rw [hc, hm]
  dsimp only
  rw [hkey]
  rfl

theorem mcPhase_conflict (m : TgMsg) (c : Option Nat) (now : Int)
    (ctx : SaveCtx) (cid mid : Nat)
    (hc : c = some cid) (hm : midOk m = some mid)
    (hkey : ctx.st.db.mcRows.any (mcKeyMatch cid mid) = false)
    (hconf : hashConflict ctx.st.db ctx.ids.file_hash = true) :
    mcPhase m c now ctx = ctx := by
  unfold mcPhase
  rw [hc, hm]
  dsimp only
  rw [hkey, hconf]
  rfl

theorem mcPhase_insert (m : TgMsg) (c : Option Nat) (now : Int)
    (ctx : SaveCtx) (cid mid : Nat)
    (hc : c = some cid) (hm : midOk m = some mid)
    (hkey : ctx.st.db.mcRows.any (mcKeyMatch cid mid) = false)
    (hconf : hashConflict ctx.st.db ctx.ids.file_hash = false) :
    mcPhase m c now ctx =
      { ctx with
        st := { ctx.st with db := { ctx.st.db with
          mcRows := ctx.st.db.mcRows ++
            [mkMCRow cid mid (normalizeDatetime m.date now) ctx.ids] } },
        savedAny := true } := by
  unfold mcPhase
  rw [hc, hm]
  dsimp only
  rw [hkey, hconf]
  rfl

/-! ## Save-level lemmas -/

theorem keyCount_pos_iff_any (db : DB) (cid mid : Nat) :
    0 < keyCount db cid mid ↔ db.mcRows.any (mcKeyMatch cid mid) = true := by
  simp [keyCount, List.length_pos_iff_exists_mem, List.mem_filter,
    List.any_eq_true]

/-- The content phases never touch the unified-record table. -/
theorem contentPhases_mcRows (m : TgMsg) (c : Option Nat) (st : BotState) :
    (emptyPhase m
      (mediaPhase m c (textPhase m c ⟨st, {}, false, false⟩))).st.db.mcRows
      = st.db.mcRows := by
  rw [emptyPhase_st, mediaPhase_mcRows, textPhase_mcRows]

/-- If a unified record for the message's key already exists, the whole save
call leaves the unified-record table unchanged. -/
theorem save_mcRows_key_present (st : BotState) (m : TgMsg)
    (chId : Option Nat) (now : Int) (cid mid : Nat)
    (hc : cidOf chId = some cid) (hm : midOk m = some mid)
    (hkey : st.db.mcRows.any (mcKeyMatch cid mid) = true) :
    (saveTelethonMessage st m chId now).state.db.mcRows = st.db.mcRows := by
  unfold saveTelethonMessage
  dsimp only
  rw [mcPhase_existing _ _ _ _ _ _ hc hm
    (by rw [contentPhases_mcRows]; exact hkey)]
  exact contentPhases_mcRows m (cidOf chId) st

/-- One save call starting from a state without a record for the message's
key leaves at most one record for that key. -/
theorem save_keyCount_le_one (st : BotState) (m : TgMsg) (chId : Option Nat)
    (now : Int) (cid mid : Nat)
    (hc : cidOf chId = some cid) (hm : midOk m = some mid)
    (h0 : keyCount st.db cid mid = 0) :
    keyCount (saveTelethonMessage st m chId now).state.db cid mid ≤ 1 := by
  unfold saveTelethonMessage
  dsimp only
  have h1 := contentPhases_mcRows m (cidOf chId) st
  have hkey : (emptyPhase m (mediaPhase m (cidOf chId)
      (textPhase m (cidOf chId) ⟨st, {}, false, false⟩))).st.db.mcRows.any
      (mcKeyMatch cid mid) = false := by
    rw [h1]
    cases ha : st.db.mcRows.any (mcKeyMatch cid mid) with
    | false => rfl
    | true =>
      have := (keyCount_pos_iff_any st.db cid mid).2 ha
      omega
  cases hcf : hashConflict (emptyPhase m (mediaPhase m (cidOf chId)
      (textPhase m (cidOf chId) ⟨st, {}, false, false⟩))).st.db
      (emptyPhase m (mediaPhase m (cidOf chId)
        (textPhase m (cidOf chId) ⟨st, {}, false, false⟩))).ids.file_hash with
  | true =>
    rw [mcPhase_conflict _ _ _ _ _ _ hc hm hkey hcf]
    unfold keyCount
    rw [h1]
    unfold keyCount at h0
    omega
  | false =>
    rw [mcPhase_insert _ _ _ _ _ _ hc hm hkey hcf]
    unfold keyCount
    dsimp only
    rw [h1, List.filter_append]
    unfold keyCount at h0
    simp [h0, mcKeyMatch, mkMCRow]

theorem mcPhase_photoRows (m : TgMsg) (c : Option Nat) (now : Int)
    (ctx : SaveCtx) :
    (mcPhase m c now ctx).st.db.photoRows = ctx.st.db.photoRows := by
  unfold mcPhase; repeat' split
  all_goals rfl

theorem mcPhase_videoRows (m : TgMsg) (c : Option Nat) (now : Int)
    (ctx : SaveCtx) :
    (mcPhase m c now ctx).st.db.videoRows = ctx.st.db.videoRows := by
  unfold mcPhase; repeat' split
  all_goals rfl

theorem mcPhase_audioRows (m : TgMsg) (c : Option Nat) (now : Int)
    (ctx : SaveCtx) :
    (mcPhase m c now ctx).st.db.audioRows = ctx.st.db.audioRows := by
  unfold mcPhase; repeat' split
  all_goals rfl

theorem mcPhase_documentRows (m : TgMsg) (c : Option Nat) (now : Int)
    (ctx : SaveCtx) :
    (mcPhase m c now ctx).st.db.documentRows = ctx.st.db.documentRows := by
  unfold mcPhase; repeat' split
  all_goals rfl

theorem mcPhase_stickerRows (m : TgMsg) (c : Option Nat) (now : Int)
    (ctx : SaveCtx) :
    (mcPhase m c now ctx).st.db.stickerRows = ctx.st.db.stickerRows := by
  unfold mcPhase; repeat' split
  all_goals rfl

theorem mcPhase_animationRows (m : TgMsg) (c : Option Nat) (now : Int)
    (ctx : SaveCtx) :
    (mcPhase m c now ctx).st.db.animationRows = ctx.st.db.animationRows := by
  unfold mcPhase; repeat' split
  all_goals rfl

/-- Fresh (non-duplicate) text with a channel id and at least one extracted
link: the text row is inserted and the first link is upserted. -/
theorem textPhase_fresh_link (m : TgMsg) (c : Option Nat) (ctx : SaveCtx)
    (t : String) (cid : Nat) (l : LinkData) (ls : List LinkData)
    (h1 : m.message = some t) (h2 : t.isEmpty = false)
    (h3 : ctx.st.processedContent.contains (encodeUtf8 t) = false)
    (hc : c = some cid) (hl : extractLinks t = l :: ls) :
    textPhase m c ctx =
      { ctx with
        messageProcessed := true,
        st := { ctx.st with
          sink := ctx.st.sink ++ [SinkEntry.mk "text" (encodeUtf8 t)],
          db := (upsertLink { ctx.st.db with textRows :=
            ctx.st.db.textRows ++ [(ctx.st.db.textRows.length + 1, t)] } l).2,
          processedContent := ctx.st.processedContent ++
            [calculateFileHash (encodeUtf8 t)] },
        ids := { ctx.ids with
          file_hash := some (calculateFileHash (encodeUtf8 t)),
          text_id := some (ctx.st.db.textRows.length + 1),
          link_id := some (upsertLink { ctx.st.db with textRows :=
            ctx.st.db.textRows ++ [(ctx.st.db.textRows.length + 1, t)] } l).1 },
        savedAny := true } := by
  unfold textPhase
  rw [h1]
  dsimp only
  rw [h2, hc, hl]
  have hd : isDuplicate
      { ctx.st with sink := ctx.st.sink ++ [SinkEntry.mk "text" (encodeUtf8 t)] }
      (calculateFileHash (encodeUtf8 t)) = false := h3
  rw [hd]
  rfl

theorem mem_link_typesSavedOf (ids : ContentIds)
    (h : ids.link_id.isSome = true) : "link" ∈ typesSavedOf ids := by
  unfold typesSavedOf
  simp [h]

/-! ## Claim theorems -/

/-- C6: for every raw media item, even one satisfying several kind
predicates, the classifier resolves the kind by the fixed precedence
photo > video > audio > sticker > animation, with document as the generic
fallback — the code's if/elif chain computes exactly the spec's
first-matching-predicate rule. -/
theorem c6_classifier_fixed_precedence (m : TgMsg) :
    contentTypeOf m = specPrecedenceClassify m := by
  obtain ⟨i, msg, hm, mb, p, v, a, s, g, an, d⟩ := m
  cases p <;> cases v <;> cases a <;> cases s <;> cases g <;> cases an <;> rfl

/-- C7: a message with neither text nor media but with a (non-zero) platform
message id yields a unified record whose kind references and link reference
are all null, is reported as successfully processed, and contributes to no
kind-specific count (empty `types_saved`). -/
theorem c7_empty_message_placeholder (st : BotState) (m : TgMsg)
    (chId : Option Nat) (now : Int) (cid mid : Nat)
    (h1 : m.message = none) (h2 : m.hasMedia = false)
    (hc : cidOf chId = some cid) (hm : midOk m = some mid)
    (hkey : st.db.mcRows.any (mcKeyMatch cid mid) = false) :
    saveTelethonMessage st m chId now =
      { processed := true, typesSaved := [],
        state := { st with db := { st.db with mcRows := st.db.mcRows ++
          [mkMCRow cid mid (normalizeDatetime m.date now) {}] } } } := by
  have e1 : textPhase m (cidOf chId) ⟨st, {}, false, false⟩
      = ⟨st, {}, false, false⟩ := textPhase_none _ _ _ h1
  have e2 : mediaPhase m (cidOf chId) ⟨st, {}, false, false⟩
      = ⟨st, {}, false, false⟩ := mediaPhase_noMedia _ _ _ h2
  have e3 : emptyPhase m ⟨st, {}, false, false⟩ = ⟨st, {}, true, false⟩ := by
    rw [emptyPhase_trigger _ _ rfl (by rw [hm]; rfl)]
  have e4 := mcPhase_insert m (cidOf chId) now ⟨st, {}, true, false⟩ cid mid
    hc hm hkey rfl
  unfold saveTelethonMessage
  dsimp only
  rw [e1, e2, e3, e4]
  rfl

/-- C7 witness: an id-only message against the empty store. -/
theorem c7_empty_message_placeholder_witness :
    saveTelethonMessage BotState.empty (emptyMsg 3) (some 2) 42 =
      { processed := true, typesSaved := [],
        state := { BotState.empty with db := { DB.empty with mcRows :=
          [mkMCRow 2 3 (normalizeDatetime none 42) {}] } } } :=
  c7_empty_message_placeholder BotState.empty (emptyMsg 3) (some 2) 42 2 3
    rfl rfl rfl rfl rfl

/-- C1 counterexample: the claim as stated is false.  Message 1 and the
byte-identical message 2 are ingested into the same channel; message 2 is
still reported processed, but the `UNIQUE` constraint on
`message_channel.file_hash` rejects its unified insert (the error is caught
and logged), so no unified record keyed `(channel 1, message 2)` exists and
the table holds only message 1's record. -/
theorem c1_counterexample :
    (saveTelethonMessage
        (saveTelethonMessage BotState.empty (textMsg 1 "hi") (some 1) 0).state
        (textMsg 2 "hi") (some 1) 0).processed = true
    ∧ keyCount (saveTelethonMessage
        (saveTelethonMessage BotState.empty (textMsg 1 "hi") (some 1) 0).state
        (textMsg 2 "hi") (some 1) 0).state.db 1 2 = 0
    ∧ (saveTelethonMessage
        (saveTelethonMessage BotState.empty (textMsg 1 "hi") (some 1) 0).state
        (textMsg 2 "hi") (some 1) 0).state.db.mcRows.length = 1 := by
  decide

/-- C1 (amended): a message whose entire content is a byte-identical
duplicate of previously ingested content (fingerprint recorded in the
in-memory index, hash present on an existing unified record) does NOT get a
unified record of its own: the insert is attempted but rejected by the
`UNIQUE` constraint on `file_hash`, the error is caught, the unified table
is left unchanged, and the message is still reported processed. -/
theorem c1_duplicate_message_no_own_unified_record
    (st : BotState) (m : TgMsg) (chId : Option Nat) (now : Int)
    (t : String) (cid mid : Nat)
    (h1 : m.message = some t) (h2 : t.isEmpty = false)
    (h3 : m.hasMedia = false)
    (hc : cidOf chId = some cid) (hm : midOk m = some mid)
    (hdup : st.processedContent.contains (encodeUtf8 t) = true)
    (hkey : st.db.mcRows.any (mcKeyMatch cid mid) = false)
    (hhash : st.db.mcRows.any
      (fun r => r.file_hash == some (encodeUtf8 t)) = true) :
    (saveTelethonMessage st m chId now).state.db.mcRows = st.db.mcRows
    ∧ (saveTelethonMessage st m chId now).processed = true := by
  have e1 := textPhase_dup m (cidOf chId) ⟨st, {}, false, false⟩ t h1 h2 hdup
  unfold saveTelethonMessage
  dsimp only
  rw [e1]
  rw [mediaPhase_noMedia _ _ _ h3]
  rw [emptyPhase_done _ _ rfl]
  rw [mcPhase_conflict _ _ _ _ _ _ hc hm hkey
    (show hashConflict st.db (some (calculateFileHash (encodeUtf8 t))) = true
      from hhash)]
  exact ⟨rfl, rfl⟩

/-- C1 witness for the amended theorem: the concrete scenario in which
message 2 byte-identically duplicates the already-ingested message 1. -/
theorem c1_duplicate_message_no_own_unified_record_witness :
    (saveTelethonMessage
        (saveTelethonMessage BotState.empty (textMsg 1 "hi") (some 1) 0).state
        (textMsg 2 "hi") (some 1) 0).state.db.mcRows =
      (saveTelethonMessage BotState.empty
        (textMsg 1 "hi") (some 1) 0).state.db.mcRows
    ∧ (saveTelethonMessage
        (saveTelethonMessage BotState.empty (textMsg 1 "hi") (some 1) 0).state
        (textMsg 2 "hi") (some 1) 0).processed = true :=
  c1_duplicate_message_no_own_unified_record
    (saveTelethonMessage BotState.empty (textMsg 1 "hi") (some 1) 0).state
    (textMsg 2 "hi") (some 1) 0 "hi" 1 2
    rfl rfl rfl rfl rfl (by decide) (by decide) (by decide)

/-- C3 counterexample: "reconciling the same (channel, platform message id)
twice leaves exactly one unified record" fails when the message's content
hash already occurs on another message's unified record: both calls' inserts
are rejected by the `file_hash` uniqueness, so the key ends with zero
records, not one. -/
theorem c3_counterexample :
    keyCount
      (saveTelethonMessage
        (saveTelethonMessage
          { BotState.empty with
            processedContent := [encodeUtf8 "hi"],
            db := { DB.empty with
              mcRows := [mkMCRow 1 1 0 { file_hash := some (encodeUtf8 "hi") }] } }
          (textMsg 2 "hi") (some 1) 0).state
        (textMsg 2 "hi") (some 1) 0).state.db 1 2 = 0 := by
  decide

/-- C3 (amended): reconciling the same source message twice — two calls with
the same (channel, platform message id) — leaves AT MOST one unified record
for that key: if a record already exists the second call performs no insert
and no mutation (the unified table is unchanged); if the insert is rejected
by the `file_hash` uniqueness both times, the key ends with zero records. -/
theorem c3_reconcile_idempotent (st : BotState) (m : TgMsg)
    (chId : Option Nat) (now : Int) (cid mid : Nat)
    (hc : cidOf chId = some cid) (hm : midOk m = some mid) :
    (1 ≤ keyCount st.db cid mid →
      (saveTelethonMessage st m chId now).state.db.mcRows = st.db.mcRows)
    ∧ (keyCount st.db cid mid = 0 →
        keyCount (saveTelethonMessage
          (saveTelethonMessage st m chId now).state m chId now).state.db
          cid mid ≤ 1) := by
  constructor
  · intro hpos
    exact save_mcRows_key_present st m chId now cid mid hc hm
      ((keyCount_pos_iff_any st.db cid mid).1 (by omega))
  · intro h0
    have hle := save_keyCount_le_one st m chId now cid mid hc hm h0
    rcases Nat.eq_zero_or_pos
        (keyCount (saveTelethonMessage st m chId now).state.db cid mid)
      with hz | hp
    · exact save_keyCount_le_one _ m chId now cid mid hc hm hz
    · have heq := save_mcRows_key_present
        (saveTelethonMessage st m chId now).state m chId now cid mid hc hm
        ((keyCount_pos_iff_any _ cid mid).1 hp)
      unfold keyCount
      rw [heq]
      exact hle

/-- C3 witness: the amended statement at a concrete empty-store input. -/
theorem c3_reconcile_idempotent_witness :
    (1 ≤ keyCount BotState.empty.db 1 1 →
      (saveTelethonMessage BotState.empty
        (emptyMsg 1) (some 1) 0).state.db.mcRows = BotState.empty.db.mcRows)
    ∧ (keyCount BotState.empty.db 1 1 = 0 →
        keyCount (saveTelethonMessage
          (saveTelethonMessage BotState.empty (emptyMsg 1) (some 1) 0).state
          (emptyMsg 1) (some 1) 0).state.db 1 1 ≤ 1) :=
  c3_reconcile_idempotent BotState.empty (emptyMsg 1) (some 1) 0 1 1 rfl rfl

/-- C2 counterexample: the claim as stated is false.  The text
`"go https://a.b"` contains an embedded URL, but when its fingerprint is
already recorded as a duplicate the link store is left untouched — link
extraction runs only inside the not-duplicate branch. -/
theorem c2_counterexample :
    extractLinks "go https://a.b" ≠ []
    ∧ (saveTelethonMessage
        { BotState.empty with
          processedContent := [encodeUtf8 "go https://a.b"] }
        (textMsg 5 "go https://a.b") (some 1) 0).state.db.linkRows = [] := by
  decide

/-- C2 (amended): for a text message with a usable channel id, the first
embedded http/https URL is parsed into (url, domain) and upserted into the
link store ONLY when the text's fingerprint is not already recorded; when
the text is a duplicate, no link is stored. -/
theorem c2_link_upsert_requires_fresh_text (st : BotState) (m : TgMsg)
    (chId : Option Nat) (now : Int) (t : String) (cid : Nat)
    (h1 : m.message = some t) (h2 : t.isEmpty = false)
    (h3 : m.hasMedia = false) (hc : cidOf chId = some cid) :
    (st.processedContent.contains (encodeUtf8 t) = true →
      (saveTelethonMessage st m chId now).state.db.linkRows = st.db.linkRows)
    ∧ (st.processedContent.contains (encodeUtf8 t) = false →
        ∀ l ls, extractLinks t = l :: ls →
          (saveTelethonMessage st m chId now).state.db.linkRows
            = (upsertLink st.db l).2.linkRows
          ∧ "link" ∈ (saveTelethonMessage st m chId now).typesSaved) := by
  constructor
  · intro hdup
    have e1 := textPhase_dup m (cidOf chId) ⟨st, {}, false, false⟩ t h1 h2 hdup
    unfold saveTelethonMessage
    dsimp only
    rw [e1, mediaPhase_noMedia _ _ _ h3, emptyPhase_done _ _ rfl,
      mcPhase_linkRows]
  · intro hfresh l ls hl
    have e1 := textPhase_fresh_link m (cidOf chId) ⟨st, {}, false, false⟩
      t cid l ls h1 h2 hfresh hc hl
    unfold saveTelethonMessage
    dsimp only
    rw [e1, mediaPhase_noMedia _ _ _ h3, emptyPhase_done _ _ rfl]
    constructor
    · rw [mcPhase_linkRows]
      exact (upsertLink_congr
        { st.db with textRows :=
            st.db.textRows ++ [(st.db.textRows.length + 1, t)] }
        st.db l rfl).2
    · rw [mcPhase_ids]
      exact mem_link_typesSavedOf _ rfl

/-- C2 witness: the amended statement at a concrete fresh text containing a
URL. -/
theorem c2_link_upsert_requires_fresh_text_witness :
    (BotState.empty.processedContent.contains
        (encodeUtf8 "go https://a.b") = true →
      (saveTelethonMessage BotState.empty (textMsg 5 "go https://a.b")
        (some 1) 0).state.db.linkRows = BotState.empty.db.linkRows)
    ∧ (BotState.empty.processedContent.contains
        (encodeUtf8 "go https://a.b") = false →
        ∀ l ls, extractLinks "go https://a.b" = l :: ls →
          (saveTelethonMessage BotState.empty (textMsg 5 "go https://a.b")
            (some 1) 0).state.db.linkRows
            = (upsertLink BotState.empty.db l).2.linkRows
          ∧ "link" ∈ (saveTelethonMessage BotState.empty
              (textMsg 5 "go https://a.b") (some 1) 0).typesSaved) :=
  c2_link_upsert_requires_fresh_text BotState.empty
    (textMsg 5 "go https://a.b") (some 1) 0 "go https://a.b" 1
    rfl rfl rfl rfl

/-- C5 counterexample: the claim as stated is false.  A duplicate text item
is still written to the byte sink (`_save_file_locally` runs before the
duplicate check), and in a monitor cycle the duplicate message is counted in
the per-cycle success tally `new_count` — not in a separate duplicate
counter. -/
theorem c5_counterexample :
    (monitorCycleChannel
        { BotState.empty with processedContent := [encodeUtf8 "hi"] }
        "@c" { isActive := true, lastId := 0, channelId := some 1 }
        [textMsg 3 "hi"] 0).st.sink
      = [SinkEntry.mk "text" (encodeUtf8 "hi")]
    ∧ (monitorCycleChannel
        { BotState.empty with processedContent := [encodeUtf8 "hi"] }
        "@c" { isActive := true, lastId := 0, channelId := some 1 }
        [textMsg 3 "hi"] 0).newCount = 1 := by
  decide

/-- C5 (amended): a content item whose fingerprint is already recorded gets
no kind-row insert and is not reported as a failure, but: duplicate TEXT is
still written to the byte sink (the local save precedes the duplicate
check), while duplicate media is not; and the duplicate is counted among
processed messages (with an empty `types_saved`), not in a separate
duplicate counter. -/
theorem c5_duplicate_short_circuit :
    (∀ (st : BotState) (m : TgMsg) (chId : Option Nat) (now : Int)
        (t : String),
      m.message = some t → t.isEmpty = false → m.hasMedia = false →
      st.processedContent.contains (encodeUtf8 t) = true →
      (saveTelethonMessage st m chId now).state.db.textRows = st.db.textRows
      ∧ (saveTelethonMessage st m chId now).state.db.linkRows = st.db.linkRows
      ∧ (saveTelethonMessage st m chId now).state.sink
          = st.sink ++ [SinkEntry.mk "text" (encodeUtf8 t)]
      ∧ (saveTelethonMessage st m chId now).processed = true
      ∧ (saveTelethonMessage st m chId now).typesSaved = [])
    ∧ (∀ (st : BotState) (m : TgMsg) (chId : Option Nat) (now : Int),
      m.message = none → m.hasMedia = true → m.mediaBytes.isEmpty = false →
      st.processedContent.contains (calculateFileHash m.mediaBytes) = true →
      (saveTelethonMessage st m chId now).state.sink = st.sink
      ∧ (saveTelethonMessage st m chId now).state.db.photoRows = st.db.photoRows
      ∧ (saveTelethonMessage st m chId now).state.db.videoRows = st.db.videoRows
      ∧ (saveTelethonMessage st m chId now).state.db.audioRows = st.db.audioRows
      ∧ (saveTelethonMessage st m chId now).state.db.documentRows
          = st.db.documentRows
      ∧ (saveTelethonMessage st m chId now).state.db.stickerRows
          = st.db.stickerRows
      ∧ (saveTelethonMessage st m chId now).state.db.animationRows
          = st.db.animationRows
      ∧ (saveTelethonMessage st m chId now).processed = true
      ∧ (saveTelethonMessage st m chId now).typesSaved = []) := by
  constructor
  · intro st m chId now t h1 h2 h3 hdup
    have e1 := textPhase_dup m (cidOf chId) ⟨st, {}, false, false⟩ t h1 h2 hdup
    unfold saveTelethonMessage
    dsimp only
    rw [e1, mediaPhase_noMedia _ _ _ h3, emptyPhase_done _ _ rfl]
    refine ⟨?_, ?_, ?_, ?_, ?_⟩
    · rw [mcPhase_textRows]
    · rw [mcPhase_linkRows]
    · rw [mcPhase_sink]
    · rw [mcPhase_messageProcessed]
      simp
    · rw [mcPhase_ids]
      rfl
  · intro st m chId now h1 h2 h3 hdup
    have e2 := mediaPhase_dup m (cidOf chId) ⟨st, {}, false, false⟩ h2 h3 hdup
    unfold saveTelethonMessage
    dsimp only
    rw [textPhase_none _ _ _ h1, e2, emptyPhase_done _ _ rfl]
    refine ⟨?_, ?_, ?_, ?_, ?_, ?_, ?_, ?_, ?_⟩
    · rw [mcPhase_sink]
    · rw [mcPhase_photoRows]
    · rw [mcPhase_videoRows]
    · rw [mcPhase_audioRows]
    · rw [mcPhase_documentRows]
    · rw [mcPhase_stickerRows]
    · rw [mcPhase_animationRows]
    · rw [mcPhase_messageProcessed]
      simp
    · rw [mcPhase_ids]
      rfl

/-- C5 witness: the amended statement at concrete duplicate text and
duplicate media inputs. -/
theorem c5_duplicate_short_circuit_witness :
    ((saveTelethonMessage
        { BotState.empty with processedContent := [encodeUtf8 "hi"] }
        (textMsg 3 "hi") (some 1) 0).processed = true
      ∧ (saveTelethonMessage
        { BotState.empty with processedContent := [encodeUtf8 "hi"] }
        (textMsg 3 "hi") (some 1) 0).typesSaved = [])
    ∧ ((saveTelethonMessage
        { BotState.empty with processedContent := [[9]] }
        { emptyMsg 4 with hasMedia := true, mediaBytes := [9] }
        (some 1) 0).state.sink = BotState.empty.sink
      ∧ (saveTelethonMessage
        { BotState.empty with processedContent := [[9]] }
        { emptyMsg 4 with hasMedia := true, mediaBytes := [9] }
        (some 1) 0).typesSaved = []) := by
  refine ⟨⟨?_, ?_⟩, ⟨?_, ?_⟩⟩
  · exact ((c5_duplicate_short_circuit.1
      { BotState.empty with processedContent := [encodeUtf8 "hi"] }
      (textMsg 3 "hi") (some 1) 0 "hi" rfl rfl rfl (by decide)).2.2.2).1
  · exact ((c5_duplicate_short_circuit.1
      { BotState.empty with processedContent := [encodeUtf8 "hi"] }
      (textMsg 3 "hi") (some 1) 0 "hi" rfl rfl rfl (by decide)).2.2.2).2
  · exact (c5_duplicate_short_circuit.2
      { BotState.empty with processedContent := [[9]] }
      { emptyMsg 4 with hasMedia := true, mediaBytes := [9] }
      (some 1) 0 rfl rfl rfl (by decide)).1
  · exact (c5_duplicate_short_circuit.2
      { BotState.empty with processedContent := [[9]] }
      { emptyMsg 4 with hasMedia := true, mediaBytes := [9] }
      (some 1) 0 rfl rfl rfl (by decide)).2.2.2.2.2.2.2.2

/-! ## Monitor-cycle lemmas -/

/-- The cursor after a message batch equals the old cursor joined with the
maximum id among successfully processed messages, for ANY batch order. -/
theorem runMsgs_lastId (tag : String) (now : Int) :
    ∀ (msgs : List TgMsg) (st : BotState) (meta : ChanMeta),
      (runMsgs tag now st meta msgs).meta.lastId
        = max meta.lastId
            (listMax (successIds (runMsgs tag now st meta msgs).log)) := by
  intro msgs
  induction msgs with
  | nil => intro st meta; simp [runMsgs, successIds, listMax]
  | cons m rest ih =>
    intro st meta
    simp only [runMsgs]
    split
    · split
      · rename_i hp hcond
        dsimp only
        rw [ih]
        simp [successIds, listMax]
        omega
      · rename_i hp hcond
        dsimp only
        rw [ih]
        simp [successIds, listMax]
        omega
    · rename_i hp
      dsimp only
      rw [ih]
      simp [successIds, listMax]

/-- Every entry of a cycle's log is one of the batch's messages, in order. -/
theorem runMsgs_log_fst (tag : String) (now : Int) :
    ∀ (msgs : List TgMsg) (st : BotState) (meta : ChanMeta),
      (runMsgs tag now st meta msgs).log.map Prod.fst = msgs := by
  intro msgs
  induction msgs with
  | nil => intro st meta; rfl
  | cons m rest ih =>
    intro st meta
    simp only [runMsgs]
    split
    · split
      · dsimp only
        rw [List.map_cons, ih]
      · dsimp only
        rw [List.map_cons, ih]
    · dsimp only
      rw [List.map_cons, ih]

/-- C4: for every monitor cycle over a channel and every order of the batch,
the post-cycle cursor equals max(pre-cycle lastSeenId, maximum id among the
messages successfully processed this cycle); in particular the cursor never
decreases. -/
theorem c4_cursor_equals_max (st : BotState) (tag : String) (meta : ChanMeta)
    (msgs : List TgMsg) (now : Int) :
    (monitorCycleChannel st tag meta msgs now).meta.lastId
      = max meta.lastId
          (listMax (successIds (monitorCycleChannel st tag meta msgs now).log))
    ∧ meta.lastId ≤ (monitorCycleChannel st tag meta msgs now).meta.lastId := by
  have h : (monitorCycleChannel st tag meta msgs now).meta
      = (runMsgs tag now st meta msgs).meta := rfl
  have hl : (monitorCycleChannel st tag meta msgs now).log
      = (runMsgs tag now st meta msgs).log := rfl
  rw [h, hl, runMsgs_lastId]
  exact ⟨rfl, Nat.le_max_left _ _⟩

/-- `addChannel` initializes the in-memory cursor with the channel's current
latest message id. -/
theorem addChannel_lastId (st : BotState) (tag title : String)
    (adder latest : Nat) (now : Int) :
    (addChannel st tag title adder latest now).2.lastId = latest := by
  unfold addChannel
  split <;> rfl

/-- Cursor lower bound survives any sequence of cycles, and every processed
message's id beats it. -/
theorem runCycles_log_gt (tag : String) (now : Int) :
    ∀ (hists : List (List TgMsg)) (st : BotState) (meta : ChanMeta) (L : Nat),
      L ≤ meta.lastId →
      ∀ p ∈ (runCycles tag now st meta hists).log, L < p.1.id.getD 0 := by
  intro hists
  induction hists with
  | nil =>
    intro st meta L hL p hp
    simp [runCycles] at hp
  | cons h rest ih =>
    intro st meta L hL p hp
    simp only [runCycles] at hp
    by_cases ha : meta.isActive = true
    · rw [if_pos ha] at hp
      dsimp only at hp
      rw [List.mem_append] at hp
      rcases hp with hp | hp
      · have hfst : p.1 ∈ h.filter
            (fun m => decide (meta.lastId < m.id.getD 0)) := by
          have hmap := runMsgs_log_fst tag now
            (h.filter (fun m => decide (meta.lastId < m.id.getD 0))) st meta
          rw [← hmap]
          exact List.mem_map_of_mem Prod.fst hp
        have hdec := List.of_mem_filter hfst
        have hlt : meta.lastId < p.1.id.getD 0 := by simpa using hdec
        omega
      · refine ih _ _ L ?_ p hp
        have hmono : meta.lastId ≤
            (cycleOnHistory st tag meta h now).meta.lastId := by
          have e : (cycleOnHistory st tag meta h now).meta
              = (runMsgs tag now st meta
                  (h.filter (fun m => decide (meta.lastId < m.id.getD 0)))).meta
              := rfl
          rw [e, runMsgs_lastId]
          exact Nat.le_max_left _ _
        omega
    · rw [if_neg ha] at hp
      exact ih _ _ L hL p hp

/-- C8: registering a channel sets the initial cursor to the channel's
current latest message id, and every message any later monitor cycle passes
to processing has an id strictly greater than that id — history predating
registration is never ingested. -/
theorem c8_no_retroactive_ingestion (st : BotState) (tag title : String)
    (adder latest : Nat) (now : Int) (hists : List (List TgMsg)) :
    (addChannel st tag title adder latest now).2.lastId = latest
    ∧ ∀ p ∈ (runCycles tag now (addChannel st tag title adder latest now).1
        (addChannel st tag title adder latest now).2 hists).log,
        latest < p.1.id.getD 0 := by
  refine ⟨addChannel_lastId st tag title adder latest now, ?_⟩
  intro p hp
  exact runCycles_log_gt tag now hists _ _ latest
    (le_of_eq (addChannel_lastId st tag title adder latest now).symm) p hp

/-- C8 witness: register at latest id 100, then a cycle over a history
containing message 101; the one processed message has id above 100. -/
theorem c8_no_retroactive_ingestion_witness :
    ((emptyMsg 101, true) ∈ (runCycles "@c" 0
        (addChannel BotState.empty "@c" "chan" 0 100 0).1
        (addChannel BotState.empty "@c" "chan" 0 100 0).2
        [[emptyMsg 101]]).log)
    ∧ 100 < (emptyMsg 101).id.getD 0 :=
  ⟨by decide,
   (c8_no_retroactive_ingestion BotState.empty "@c" "chan" 0 100 0
      [[emptyMsg 101]]).2 (emptyMsg 101, true) (by decide)⟩

/-! ## Coalescer lemmas -/

theorem runEvents_append (s : CoalState) (a b : List GEvent) :
    runEvents s (a ++ b) = runEvents (runEvents s a) b := by
  induction a generalizing s with
  | nil => rfl
  | cons e rest ih => cases e <;> simp [runEvents, ih]

/-- Arrivals for a group that is already buffered extend its buffer in
arrival order and start one more timer task each. -/
theorem run_arrivals (gid : String) :
    ∀ (arrivals : List (Nat × Nat)) (buf : List Nat)
      (L : List (Nat × String × List Nat)) (k : Nat),
      runEvents ⟨[(gid, buf)], L, k⟩
          (arrivals.map (fun a => GEvent.arrive a.1 gid a.2))
        = ⟨[(gid, buf ++ arrivals.map Prod.snd)], L, k + arrivals.length⟩ := by
  intro arrivals
  induction arrivals with
  | nil => intro buf L k; simp [runEvents]
  | cons a rest ih =>
    intro buf L k
    simp only [List.map_cons, runEvents]
    have h : handleMediaGroup ⟨[(gid, buf)], L, k⟩ gid a.2
        = ⟨[(gid, buf ++ [a.2])], L, k + 1⟩ := by
      unfold handleMediaGroup
      simp
    rw [h, ih]
    simp [CoalState.mk.injEq]
    omega

/-- Timer expiries for a group whose buffer is gone are no-ops. -/
theorem run_timers_empty (gid : String) :
    ∀ (ts : List (Nat × Nat)) (L : List (Nat × String × List Nat)) (k : Nat),
      runEvents ⟨[], L, k⟩
          (ts.map (fun a => GEvent.timer (a.1 + quiescenceDelay) gid))
        = ⟨[], L, k⟩ := by
  intro ts
  induction ts with
  | nil => intro L k; rfl
  | cons a rest ih =>
    intro L k
    simp only [List.map_cons, runEvents]
    have h : handleTimerExpiry ⟨[], L, k⟩ (a.1 + quiescenceDelay) gid
        = ⟨[], L, k⟩ := rfl
    rw [h, ih]

/-- C9 counterexample: with two fragments of one group arriving inside the
quiescence window, TWO deferred timer tasks are created — one per fragment,
not "exactly one" anchored to the first fragment — even though the flush
still happens exactly once, at first-arrival + window, with both fragments. -/
theorem c9_counterexample :
    CoalState.timersStarted
        (runEvents CoalState.empty (groupScenario "g" [(0, 10), (1, 11)])) = 2
    ∧ CoalState.flushLog
        (runEvents CoalState.empty (groupScenario "g" [(0, 10), (1, 11)]))
      = [(2, "g", [10, 11])] := by
  decide

/-- C9 (amended): for N fragments of one media group all arriving (in
nondecreasing time order) within the quiescence window measured from the
first fragment, one timer task per fragment is started (N in total, not
one); the earliest timer — anchored to the first fragment and not extended
by later fragments — performs the only flush, at first-arrival + window,
with all N buffered fragments together; every later timer finds the buffer
deleted and does nothing, so the group is never flushed before the window
elapses nor split across flushes. -/
theorem c9_group_flushed_once (gid : String) (a : Nat × Nat)
    (rest : List (Nat × Nat))
    (hchain : ((a :: rest).map Prod.fst).Chain' (· ≤ ·))
    (hwin : ∀ t ∈ (a :: rest).map Prod.fst, t < a.1 + quiescenceDelay) :
    runEvents CoalState.empty (groupScenario gid (a :: rest)) =
      ⟨[], [(a.1 + quiescenceDelay, gid, (a :: rest).map Prod.snd)],
        (a :: rest).length⟩ := by
  unfold groupScenario
  rw [runEvents_append]
  have harr : runEvents CoalState.empty
      ((a :: rest).map (fun x => GEvent.arrive x.1 gid x.2))
      = ⟨[(gid, (a :: rest).map Prod.snd)], [], (a :: rest).length⟩ := by
    simp only [List.map_cons, runEvents]
    have h0 : handleMediaGroup CoalState.empty gid a.2
        = ⟨[(gid, [a.2])], [], 1⟩ := by
      unfold handleMediaGroup
      simp [CoalState.empty]
    rw [h0, run_arrivals]
    simp [CoalState.mk.injEq]
    omega
  rw [harr]
  simp only [List.map_cons, runEvents]
  have hflush : handleTimerExpiry
      ⟨[(gid, a.2 :: rest.map Prod.snd)], [], (a :: rest).length⟩
      (a.1 + quiescenceDelay) gid
      = ⟨[], [(a.1 + quiescenceDelay, gid, a.2 :: rest.map Prod.snd)],
          (a :: rest).length⟩ := by
    unfold handleTimerExpiry
    simp
  rw [hflush, run_timers_empty]

/-- C9 witness: two fragments arriving at times 0 and 1 inside the window. -/
theorem c9_group_flushed_once_witness :
    runEvents CoalState.empty (groupScenario "g" [(0, 10), (1, 11)]) =
      ⟨[], [(0 + quiescenceDelay, "g", [(0, 10), (1, 11)].map Prod.snd)],
        ([(0, 10), (1, 11)] : List (Nat × Nat)).length⟩ :=
  c9_group_flushed_once "g" (0, 10) [(1, 11)] (by simp) (by decide)

/-! ## Stop/reactivate -/

/-- C10 counterexample: the reactivation half of the claim is false.  A
channel registered with cursor 100 is stopped (the store retains cursor
100), messages 101..105 are posted while it is stopped, and re-adding it
when the channel's latest id is 105 resets the cursor to 105 — the next
cycle over a history holding messages 101 and 106 ingests only 106, so
message 101 is skipped instead of being resumed from the retained cursor. -/
theorem c10_counterexample :
    let s0 := addChannel BotState.empty "@c" "chan" 7 100 0
    let sp := stopChannel s0.1.db [("@c", s0.2)] "@c" 1
    let s1 := addChannel { s0.1 with db := sp.db } "@c" "chan" 7 105 2
    sp.db.channelRows.map (fun r => r.last_message_id) = [100]
    ∧ s1.2.lastId = 105
    ∧ (runCycles "@c" 3 s1.1 s1.2 [[emptyMsg 101, emptyMsg 106]]).log.map
        (fun p => p.1.id.getD 0) = [106] := by
  decide

/-- C10 (amended): stopping a registered channel marks it inactive in the
store and in memory while leaving every cursor (`last_message_id` /
`last_id`) unchanged; but a later reactivation via `addChannel` resets the
cursor to the channel's CURRENT latest message id, so ingestion resumes from
that latest id — messages posted while stopped are skipped, not resumed. -/
theorem c10_stop_marks_inactive_retains_cursor (db : DB) (mon : Monitored)
    (tag : String) (now : Int) (st : BotState) (title : String)
    (adder latest : Nat) (now2 : Int)
    (hdb : db.channelRows.any (fun r => r.tag_channel == tag) = true) :
    ((stopChannel db mon tag now).db.channelRows.map
        (fun r => r.last_message_id)
      = db.channelRows.map (fun r => r.last_message_id))
    ∧ (∀ r ∈ (stopChannel db mon tag now).db.channelRows,
        r.tag_channel = tag → r.is_active = false)
    ∧ ((stopChannel db mon tag now).mon.map (fun p => (p.1, p.2.lastId))
        = mon.map (fun p => (p.1, p.2.lastId)))
    ∧ (∀ p ∈ (stopChannel db mon tag now).mon,
        p.1 = tag → p.2.isActive = false)
    ∧ (addChannel st tag title adder latest now2).2.lastId = latest := by
  have hstop : stopChannel db mon tag now =
      ⟨true,
       { db with channelRows := db.channelRows.map (fun r =>
           if r.tag_channel == tag then
             { r with is_active := false, last_check_at := now }
           else r) },
       mon.map (fun p =>
         if p.1 == tag then (p.1, { p.2 with isActive := false }) else p)⟩ := by
    unfold stopChannel
    rw [hdb]
    rfl
  rw [hstop]
  refine ⟨?_, ?_, ?_, ?_, addChannel_lastId st tag title adder latest now2⟩
  · dsimp only
    rw [List.map_map]
    apply List.map_congr_left
    intro r _
    dsimp only [Function.comp]
    split <;> rfl
  · dsimp only
    intro r hr htag
    rw [List.mem_map] at hr
    obtain ⟨r0, _, rfl⟩ := hr
    by_cases hb : (r0.tag_channel == tag) = true
    · simp only [hb, if_true]
    · simp only [hb, if_false] at htag ⊢
      exact absurd (by simpa using htag) (by simpa using hb)
  · dsimp only
    rw [List.map_map]
    apply List.map_congr_left
    intro p _
    dsimp only [Function.comp]
    split <;> rfl
  · dsimp only
    intro p hp htag
    rw [List.mem_map] at hp
    obtain ⟨p0, _, rfl⟩ := hp
    by_cases hb : (p0.1 == tag) = true
    · simp only [hb, if_true]
    · simp only [hb, if_false] at htag ⊢
      exact absurd (by simpa using htag) (by simpa using hb)

/-- C10 witness: the amended statement on a one-channel store. -/
theorem c10_stop_marks_inactive_retains_cursor_witness :
    let s0 := addChannel BotState.empty "@c" "chan" 7 100 0
    let sp := stopChannel s0.1.db [("@c", s0.2)] "@c" 1
    (sp.db.channelRows.map (fun r => r.last_message_id)
      = s0.1.db.channelRows.map (fun r => r.last_message_id))
    ∧ (∀ r ∈ sp.db.channelRows, r.tag_channel = "@c" → r.is_active = false)
    ∧ (sp.mon.map (fun p => (p.1, p.2.lastId))
      = [("@c", s0.2)].map (fun p => (p.1, p.2.lastId)))
    ∧ (∀ p ∈ sp.mon, p.1 = "@c" → p.2.isActive = false)
    ∧ (addChannel BotState.empty "@c" "chan" 7 105 2).2.lastId = 105 :=
  c10_stop_marks_inactive_retains_cursor
    (addChannel BotState.empty "@c" "chan" 7 100 0).1.db
    [("@c", (addChannel BotState.empty "@c" "chan" 7 100 0).2)]
    "@c" 1 BotState.empty "chan" 7 105 2 (by decide)

end ContentBot
